import Mathlib

/-!
Verification of the BGAPP Deck.GL WASM session controller
(`src/bgapp/cartography/task002-poc/wasm_deckgl_poc.rs`).

Shallow embedding conventions:
* `f64` arithmetic is modelled over `ℚ`.  For record counts and for
  formula-identity comparisons between the code and the spec's restatement of
  the same formula (both sides perform the identical operation sequence),
  numeric literals are taken at their exact rational values, since those
  claims are insensitive to rounding.  For the one claim whose content is a
  numeric range with rounding-sensitive endpoints (the temperature weights),
  the weights are additionally computed under an exact model of IEEE-754
  binary64 arithmetic (round to nearest, ties to even; `roundF64` below),
  which reproduces bit-for-bit what the Rust program computes.
* The external Deck.GL renderer, the DOM and the JS clock are opaque
  collaborators.  Their interactions are made explicit: every controller
  operation returns, besides the successor state, the list of renderer calls
  it performed (`setProps` / `finalize`) and a success flag; the measured
  wall-clock duration of an operation and the outcomes of fallible external
  calls (serialization to `JsValue`, environment acquisition, the WebGL
  capability probe) enter as parameters of the operation.
* `serde_json::to_value` on the fixed record shapes is infallible and
  lossless (the spec models serialization as a lossless structural
  transcoding collaborator); a layer's `data` payload is therefore kept as
  the tagged records themselves.
* The source's `run_sanity_checks` writes `memory_usage_kb` through a shared
  reference (`clone_from` on `&self`); following the spec, which documents
  this as a mutation of the single derived field, the embedding performs the
  field update.
-/

namespace WasmDeckGL

/-- Camera parameters (`pub struct ViewState`). -/
structure ViewState where
  longitude : ℚ
  latitude : ℚ
  zoom : ℚ
  pitch : ℚ
  bearing : ℚ
deriving DecidableEq

/-- One fishing-abundance record (`pub struct FishingZone`). -/
structure FishingZone where
  position : List ℚ
  abundance : ℚ
  species : String
  zone : String
deriving DecidableEq

/-- One temperature-grid record (`pub struct TemperaturePoint`). -/
structure TemperaturePoint where
  position : List ℚ
  weight : ℚ
deriving DecidableEq

/-- A transcoded data record as it sits in a layer's `data` payload
(`Vec<serde_json::Value>` in the source; serialization of the two record
shapes is lossless, so the records are kept tagged). -/
inductive LayerDatum where
  | fishing (f : FishingZone)
  | temp (t : TemperaturePoint)
deriving DecidableEq

/-- A layer configuration (`pub struct LayerConfig`). -/
structure LayerConfig where
  id : String
  layer_type : String
  data : List LayerDatum
deriving DecidableEq

/-- Accumulated performance metrics (`pub struct PerformanceMetrics`). -/
structure PerformanceMetrics where
  init_time_ms : ℚ
  render_time_ms : ℚ
  layer_count : ℕ
  memory_usage_kb : ℚ
  fps : ℚ
deriving DecidableEq

/-- The controller state (`pub struct BGAPPDeckGLWASM`).  The opaque renderer
handle `deck_instance : Option<DeckGL>` carries no observable data, so it is
`Option Unit`. -/
structure BGAPPDeckGLWASM where
  deck_instance : Option Unit
  view_state : ViewState
  layers : List LayerConfig
  performance : PerformanceMetrics
  canvas_id : String
deriving DecidableEq

/-- Constructor `BGAPPDeckGLWASM::new(canvas_id)`. -/
def BGAPPDeckGLWASM.new (canvas_id : String) : BGAPPDeckGLWASM :=
  { deck_instance := none
    view_state :=
      { longitude := 12.0
        latitude := -11.0
        zoom := 5.0
        pitch := 0.0
        bearing := 0.0 }
    layers := []
    performance :=
      { init_time_ms := 0.0
        render_time_ms := 0.0
        layer_count := 0
        memory_usage_kb := 0.0
        fps := 0.0 }
    canvas_id := canvas_id }

/-- The five fixed coastal zones `(zone_name, lat, lng)` of
`create_angola_fishing_data`. -/
def zones : List (String × ℚ × ℚ) :=
  [("Cabinda", -5.5, 12.2),
   ("Soyo", -6.1, 12.3),
   ("Luanda", -8.8, 13.2),
   ("Benguela", -12.6, 13.4),
   ("Namibe", -15.2, 12.1)]

/-- The five fixed species labels of `create_angola_fishing_data`. -/
def speciesList : List String :=
  ["Sardinha", "Atum", "Carapau", "Corvina", "Garoupa"]

/-- `BGAPPDeckGLWASM::create_angola_fishing_data` (pure: it reads no
controller state). -/
def create_angola_fishing_data : List FishingZone :=
  zones.flatMap fun z =>
    (List.range 10).map fun (i : ℕ) =>
      let offset_lat : ℚ := ((i : ℚ) - 5.0) * 0.1
      let offset_lng : ℚ := ((i : ℚ) - 5.0) * 0.1
      { position := [z.2.2 + offset_lng, z.2.1 + offset_lat]
        abundance := 50.0 + (i : ℚ) * 15.0
        species := speciesList.getD (i % speciesList.length) ""
        zone := z.1 }

/-- Rust's `(lo..=hi).step_by(s)` over integers: `lo, lo+s, lo+2s, ...` while
`≤ hi`; empty when `lo > hi`. -/
def stepRange (lo hi : ℤ) (s : ℕ) : List ℤ :=
  if lo ≤ hi then
    (List.range ((hi - lo).toNat / s + 1)).map fun k => lo + (s : ℤ) * (k : ℤ)
  else []

/-- `BGAPPDeckGLWASM::create_temperature_data` (pure: it reads no controller
state). -/
def create_temperature_data : List TemperaturePoint :=
  (stepRange (-16) (-4) 2).flatMap fun lat =>
    (stepRange 11 14 1).map fun lng =>
      { position := [(lng : ℚ), (lat : ℚ)]
        weight := 0.3 + ((lat : ℚ) + 10.0) * 0.05 }

/-- Spec-side restatement of the fishing generator, written from the claim's
words — "for each of the 5 fixed named coastal zones, 10 points whose
position is the zone's base longitude/latitude offset by `(i - 5) * 0.1`
degrees in both axes for `i = 0..9`, with `abundance = 50 + i*15`,
`species = speciesList[i mod 5]`, and `zone` the zone's name" — to be
compared with `create_angola_fishing_data`. -/
def fishingDataFromSpec : List FishingZone :=
  (List.range 5).flatMap fun z =>
    (List.range 10).map fun (i : ℕ) =>
      { position := [(zones.getD z ("", 0, 0)).2.2 + ((i : ℚ) - 5) * 0.1,
                     (zones.getD z ("", 0, 0)).2.1 + ((i : ℚ) - 5) * 0.1]
        abundance := 50 + (i : ℚ) * 15
        species := speciesList.getD (i % 5) ""
        zone := (zones.getD z ("", 0, 0)).1 }

/-- Spec-side restatement of the temperature generator, written from the
claim's words — "iterate latitude from -16 to -4 inclusive in steps of 2
(7 steps) and longitude from 11 to 14 inclusive in steps of 1 (4 steps),
emitting for each cell a point with position `(lng, lat)` and
`weight = 0.3 + (lat+10)*0.05`" — to be compared with
`create_temperature_data`. -/
def temperatureDataFromSpec : List TemperaturePoint :=
  ((List.range 7).map fun k => (-16 : ℤ) + 2 * (k : ℤ)).flatMap fun lat =>
    ((List.range 4).map fun j => (11 : ℤ) + (j : ℤ)).map fun lng =>
      { position := [(lng : ℚ), (lat : ℚ)]
        weight := 0.3 + ((lat : ℚ) + 10) * 0.05 }

/-- `2^k` for `k < 128`, in closed form (the product of the powers selected
by the 7 binary digits of `k`), so that evaluation needs no recursion. -/
def pow2 (k : ℕ) : ℕ :=
  (if k % 2 = 1 then 2 else 1) *
  (if k / 2 % 2 = 1 then 4 else 1) *
  (if k / 4 % 2 = 1 then 16 else 1) *
  (if k / 8 % 2 = 1 then 256 else 1) *
  (if k / 16 % 2 = 1 then 65536 else 1) *
  (if k / 32 % 2 = 1 then 4294967296 else 1) *
  (if k / 64 % 2 = 1 then 18446744073709551616 else 1)

/-- One step of a binary search for the bit length: if `p = 2^k` divides
into the remaining value, account for `k` bits and shift down. -/
def bitsStep (k p : ℕ) (st : ℕ × ℕ) : ℕ × ℕ :=
  if p ≤ st.2 then (st.1 + k, st.2 / p) else st

/-- Bit length of a natural number below `2^256` (so `2^(natBits n - 1) ≤ n
< 2^(natBits n)` for `n ≠ 0`), by an unrolled binary search. -/
def natBits (n : ℕ) : ℕ :=
  if n = 0 then 0
  else
    (bitsStep 1 2 (bitsStep 2 4 (bitsStep 4 16 (bitsStep 8 256
      (bitsStep 16 65536 (bitsStep 32 4294967296
        (bitsStep 64 18446744073709551616
          (bitsStep 128 340282366920938463463374607431768211456 (0, n))))))))).1 + 1

/-- Round the fraction `a / b` (`b ≠ 0`) to the nearest natural number, ties
to even. -/
def rneNat (a b : ℕ) : ℕ :=
  let n0 := a / b
  let r := a % b
  if 2 * r < b then n0
  else if b < 2 * r then n0 + 1
  else if n0 % 2 = 0 then n0 else n0 + 1

/-- IEEE-754 binary64 rounding of the positive rational `a / b` (`a, b ≥ 1`):
locate the binade `[2^e, 2^(e+1))` containing `a / b` via bit lengths, then
round to the 53-bit grid of that binade (spacing `2^(e-52)`), to nearest,
ties to even.  Covers the normal range used in this development (overflow
and subnormal underflow do not arise: every value rounded here lies well
inside the normal binade range). -/
def roundPosF64 (a b : ℕ) : ℚ :=
  let d : ℤ := (natBits a : ℤ) - (natBits b : ℤ)
  let geD : Bool := if 0 ≤ d then b * pow2 d.toNat ≤ a else b ≤ a * pow2 (-d).toNat
  let e : ℤ := if geD then d else d - 1
  let t : ℤ := e - 52
  if 0 ≤ t then mkRat ((rneNat a (b * pow2 t.toNat) * pow2 t.toNat : ℕ) : ℤ) 1
  else mkRat ((rneNat (a * pow2 (-t).toNat) b : ℕ) : ℤ) (pow2 (-t).toNat)

/-- IEEE-754 binary64 rounding (round to nearest, ties to even) of a
rational value: the result is the exact rational value of the double nearest
to `q`.  Checked against native IEEE hardware arithmetic bit-for-bit on the
values arising below. -/
def roundF64 (q : ℚ) : ℚ :=
  if q = 0 then 0
  else if q < 0 then -roundPosF64 q.num.natAbs q.den
  else roundPosF64 q.num.natAbs q.den

/-- f64 addition: the exact sum, then binary64 rounding. -/
def addF64 (x y : ℚ) : ℚ := roundF64 (x + y)

/-- f64 multiplication: the exact product, then binary64 rounding. -/
def mulF64 (x y : ℚ) : ℚ := roundF64 (x * y)

/-- `create_temperature_data` with the weight computed in faithful IEEE
binary64 arithmetic, exactly as the Rust program does: the decimal literals
`0.3` and `0.05` denote the doubles nearest to them, the integer `lat + 10`
is cast exactly, and the `*` and `+` of
`0.3 + ((lat + 10) as f64 * 0.05)` each round their exact result.  The
positions are small integers, exact in f64. -/
def create_temperature_data_f64 : List TemperaturePoint :=
  (stepRange (-16) (-4) 2).flatMap fun lat =>
    (stepRange 11 14 1).map fun lng =>
      { position := [(lng : ℚ), (lat : ℚ)]
        weight := addF64 (roundF64 0.3) (mulF64 ((lat : ℚ) + 10) (roundF64 0.05)) }

/-- A call performed on the external Deck.GL renderer handle. -/
inductive RendererCall where
  | setProps (layers : List LayerConfig)
  | finalize
deriving DecidableEq

/-- Result of a state-mutating controller operation: the successor state, the
renderer calls performed, and whether the operation returned `Ok`. -/
structure StepResult where
  state : BGAPPDeckGLWASM
  calls : List RendererCall
  ok : Bool
deriving DecidableEq

/-- `BGAPPDeckGLWASM::update_deck_layers`: when a renderer handle exists, the
whole registry snapshot is serialized (`serdeErr` is the outcome of the
fallible `JsValue::from_serde` / `Reflect::set` calls) and pushed via
`setProps`; when no handle exists the body is skipped and the call is an
infallible no-op. -/
def update_deck_layers (st : BGAPPDeckGLWASM) (serdeErr : Bool) :
    Except Unit (List RendererCall) :=
  match st.deck_instance with
  | some _ =>
      if serdeErr then Except.error () else Except.ok [RendererCall.setProps st.layers]
  | none => Except.ok []

/-- The layer built by `add_scatterplot_layer`: id as given, type tag
`"ScatterplotLayer"`, data the freshly generated fishing records. -/
def scatterplot_layer (layer_id : String) : LayerConfig :=
  { id := layer_id
    layer_type := "ScatterplotLayer"
    data := create_angola_fishing_data.map LayerDatum.fishing }

/-- The layer built by `add_heatmap_layer`: id as given, type tag
`"HeatmapLayer"`, data the freshly generated temperature records. -/
def heatmap_layer (layer_id : String) : LayerConfig :=
  { id := layer_id
    layer_type := "HeatmapLayer"
    data := create_temperature_data.map LayerDatum.temp }

/-- `BGAPPDeckGLWASM::add_scatterplot_layer(layer_id)`.  `elapsed` is the
wall-clock duration `Date::now() - start` measured by the source; `serdeErr`
the outcome of serialization inside `update_deck_layers`.  Mirroring the
source order: the layer is pushed, then `update_deck_layers()?` runs (an
error propagates here, after the push), and only on success are
`render_time_ms` and `layer_count` updated. -/
def add_scatterplot_layer (st : BGAPPDeckGLWASM) (layer_id : String)
    (elapsed : ℚ) (serdeErr : Bool) : StepResult :=
  let st1 := { st with layers := st.layers ++ [scatterplot_layer layer_id] }
  match update_deck_layers st1 serdeErr with
  | Except.error _ => { state := st1, calls := [], ok := false }
  | Except.ok calls =>
      { state :=
          { st1 with
            performance :=
              { st1.performance with
                render_time_ms := st1.performance.render_time_ms + elapsed
                layer_count := st1.layers.length } }
        calls := calls
        ok := true }

/-- `BGAPPDeckGLWASM::add_heatmap_layer(layer_id)`; same shape as
`add_scatterplot_layer`. -/
def add_heatmap_layer (st : BGAPPDeckGLWASM) (layer_id : String)
    (elapsed : ℚ) (serdeErr : Bool) : StepResult :=
  let st1 := { st with layers := st.layers ++ [heatmap_layer layer_id] }
  match update_deck_layers st1 serdeErr with
  | Except.error _ => { state := st1, calls := [], ok := false }
  | Except.ok calls =>
      { state :=
          { st1 with
            performance :=
              { st1.performance with
                render_time_ms := st1.performance.render_time_ms + elapsed
                layer_count := st1.layers.length } }
        calls := calls
        ok := true }

/-- `BGAPPDeckGLWASM::initialize`.  `envErr` is the outcome of environment
acquisition / config construction (every fallible step precedes the renderer
construction, so a failure leaves the state untouched); on success the
renderer handle is stored and `init_time_ms` is overwritten (not accumulated)
with the measured `elapsed`. -/
def init_renderer (st : BGAPPDeckGLWASM) (envErr : Bool) (elapsed : ℚ) :
    StepResult :=
  if envErr then { state := st, calls := [], ok := false }
  else
    { state :=
        { st with
          deck_instance := some ()
          performance := { st.performance with init_time_ms := elapsed } }
      calls := []
      ok := true }

/-- The named boolean checks inserted by `run_sanity_checks`, in source
order.  `webgl_available` is the outcome of the `check_webgl_support`
environment probe. -/
def sanity_checks_list (st : BGAPPDeckGLWASM) (webgl_available : Bool) :
    List (String × Bool) :=
  [("wasm_initialized", true),
   ("deck_instance_created", st.deck_instance.isSome),
   ("layers_created", decide (0 < st.layers.length)),
   ("webgl2_available", webgl_available),
   ("init_time_acceptable", decide (st.performance.init_time_ms < 1000)),
   ("render_time_acceptable", decide (st.performance.render_time_ms < 500)),
   ("memory_usage_acceptable", decide (((st.layers.length * 100 : ℕ) : ℚ) < 10000))]

/-- The report produced by `run_sanity_checks`: the (possibly mutated)
controller state, the checks mapping, and the `all_passed` aggregate. -/
structure SanityReport where
  state : BGAPPDeckGLWASM
  checks : List (String × Bool)
  all_passed : Bool
deriving DecidableEq

/-- `BGAPPDeckGLWASM::run_sanity_checks`: builds the checks mapping,
recomputes the memory estimate `layers.len() * 100` and stores it into
`memory_usage_kb`, and aggregates with `checks.values().all(|&v| v)`. -/
def run_sanity_checks (st : BGAPPDeckGLWASM) (webgl_available : Bool) :
    SanityReport :=
  let checks := sanity_checks_list st webgl_available
  let memory_estimate : ℚ := ((st.layers.length * 100 : ℕ) : ℚ)
  { state :=
      { st with
        performance := { st.performance with memory_usage_kb := memory_estimate } }
    checks := checks
    all_passed := checks.all fun c => c.2 }

/-- `BGAPPDeckGLWASM::cleanup`: invokes the renderer's `finalize` exactly
when a handle exists; no controller state is touched. -/
def cleanup (st : BGAPPDeckGLWASM) : BGAPPDeckGLWASM × List RendererCall :=
  match st.deck_instance with
  | some _ => (st, [RendererCall.finalize])
  | none => (st, [])

/-- One controller operation of a session, with the external outcomes
(measured durations, fallible-call results, probe results) it depends on. -/
inductive Op where
  | initOp (envErr : Bool) (elapsed : ℚ)
  | addScatter (layer_id : String) (elapsed : ℚ) (serdeErr : Bool)
  | addHeat (layer_id : String) (elapsed : ℚ) (serdeErr : Bool)
  | sanity (webgl_available : Bool)
  | cleanupOp

/-- Validity of an operation's external outcomes: a measured wall-clock
duration is non-negative ("monotonic-enough wall clock"). -/
def Op.valid : Op → Prop
  | .initOp _ elapsed => 0 ≤ elapsed
  | .addScatter _ elapsed _ => 0 ≤ elapsed
  | .addHeat _ elapsed _ => 0 ≤ elapsed
  | .sanity _ => True
  | .cleanupOp => True

/-- State transition of one operation (the state component of the
corresponding controller method). -/
def step (st : BGAPPDeckGLWASM) : Op → BGAPPDeckGLWASM
  | .initOp envErr elapsed => (init_renderer st envErr elapsed).state
  | .addScatter lid elapsed serdeErr => (add_scatterplot_layer st lid elapsed serdeErr).state
  | .addHeat lid elapsed serdeErr => (add_heatmap_layer st lid elapsed serdeErr).state
  | .sanity w => (run_sanity_checks st w).state
  | .cleanupOp => (cleanup st).1

/-- Run a sequence of controller operations from a state. -/
def run (st : BGAPPDeckGLWASM) (ops : List Op) : BGAPPDeckGLWASM :=
  ops.foldl step st

/-- The controller state reached from `new("map")` by a successful
`initialize` (measuring 0 ms) followed by an `add_scatterplot_layer("a")`
whose registry serialization inside `update_deck_layers` failed. -/
def failedAddState : BGAPPDeckGLWASM :=
  (add_scatterplot_layer (init_renderer (BGAPPDeckGLWASM.new "map") false 0).state
    "a" 0 true).state

/-- C1: `create_angola_fishing_data` takes no input (it is a constant of the
embedding, hence fully deterministic) and returns exactly 50 records; the
output coincides record-for-record with the spec-side restatement
`fishingDataFromSpec` (5 zones × 10 points, position = base + `(i-5)*0.1` in
both axes, `abundance = 50 + i*15`, `species = speciesList[i mod 5]`), and
every record's species is one of the 5 fixed labels and its zone one of the
5 fixed zone names. -/
theorem c1_fishing_data_generator :
    create_angola_fishing_data.length = 50 ∧
    create_angola_fishing_data = fishingDataFromSpec ∧
    create_angola_fishing_data.all
      (fun r => speciesList.contains r.species &&
        (["Cabinda", "Soyo", "Luanda", "Benguela", "Namibe"].contains r.zone)) = true := by
  with_unfolding_all decide

/-- C2: `create_temperature_data` takes no input and returns exactly
`7 × 4 = 28` records: the latitude iteration `(-16..=-4).step_by(2)` has 7
steps, the longitude iteration `(11..=14).step_by(1)` has 4 steps, and the
output coincides record-for-record with the spec-side restatement
`temperatureDataFromSpec` (position `(lng, lat)`,
`weight = 0.3 + (lat+10)*0.05`). -/
theorem c2_temperature_data_generator :
    create_temperature_data.length = 28 ∧
    (stepRange (-16) (-4) 2).length = 7 ∧
    (stepRange 11 14 1).length = 4 ∧
    create_temperature_data = temperatureDataFromSpec := by
  with_unfolding_all decide

/-- C3, counterexample: the claim "every temperature record's weight lies in
[0.3, 1.0]" is false of the program's f64 output.  The very first generated
record (longitude 11, latitude -16) has f64 weight
`0.3 + (-6.0 * 0.05) = -2^-54` (the doubles for 0.3 and -0.3 differ from the
exact decimals, and their sum is exactly `-2^-54 ≈ -5.55e-17`), which is
negative and so in particular below 0.3. -/
theorem c3_counterexample_weight_below_bound :
    (create_temperature_data_f64.getD 0 ⟨[], 0⟩).position = [11, -16] ∧
    (create_temperature_data_f64.getD 0 ⟨[], 0⟩).weight.num = -1 ∧
    (create_temperature_data_f64.getD 0 ⟨[], 0⟩).weight.den = 18014398509481984 ∧
    (create_temperature_data_f64.getD 0 ⟨[], 0⟩).weight < 0 ∧
    ¬ ((0.3 : ℚ) ≤ (create_temperature_data_f64.getD 0 ⟨[], 0⟩).weight) ∧
    ¬ (∀ p ∈ create_temperature_data_f64, (0.3 : ℚ) ≤ p.weight ∧ p.weight ≤ 1) := by
  with_unfolding_all decide

/-- C3, amended: every record of the temperature-data generator, with
weights computed in IEEE binary64 as the program computes them, has its
weight within one rounding ulp of the ideal range [0, 0.6]: every weight
lies in `[-2^-54, 3/5 + 2^-53]` (not in [0.3, 1.0]).  The attained extremes
are `-2^-54` at latitude -16 and `1351079888211149 / 2^51 ≈
0.6000000000000001` at latitude -4 (pinned by its numerator and denominator
below); the f64 output still has exactly 28 records with the same positions
as the exact-arithmetic model. -/
theorem c3_weight_bounds_amended :
    create_temperature_data_f64.length = 28 ∧
    create_temperature_data_f64.map (fun p => p.position)
      = create_temperature_data.map (fun p => p.position) ∧
    (create_temperature_data_f64.getD 24 ⟨[], 0⟩).weight.num = 1351079888211149 ∧
    (create_temperature_data_f64.getD 24 ⟨[], 0⟩).weight.den = 2251799813685248 ∧
    create_temperature_data_f64.all
      (fun p => decide (-(1/18014398509481984) ≤ p.weight ∧
        p.weight ≤ 3/5 + 1/9007199254740992)) = true := by
  with_unfolding_all decide

/-- C10: for every `canvas_id`, the constructor produces the fixed initial
state: no renderer handle, empty registry, all five performance metrics
zero, and the view state hard-coded to longitude 12.0, latitude -11.0,
zoom 5.0, pitch 0.0, bearing 0.0. -/
theorem c10_constructor_initial_state :
    ∀ cid : String,
      (BGAPPDeckGLWASM.new cid).deck_instance = none ∧
      (BGAPPDeckGLWASM.new cid).layers = [] ∧
      (BGAPPDeckGLWASM.new cid).performance.init_time_ms = 0 ∧
      (BGAPPDeckGLWASM.new cid).performance.render_time_ms = 0 ∧
      (BGAPPDeckGLWASM.new cid).performance.layer_count = 0 ∧
      (BGAPPDeckGLWASM.new cid).performance.memory_usage_kb = 0 ∧
      (BGAPPDeckGLWASM.new cid).performance.fps = 0 ∧
      (BGAPPDeckGLWASM.new cid).view_state =
        { longitude := 12, latitude := -11, zoom := 5, pitch := 0, bearing := 0 } ∧
      (BGAPPDeckGLWASM.new cid).canvas_id = cid := by
  intro cid
  with_unfolding_all exact ⟨rfl, rfl, rfl, rfl, rfl, rfl, rfl, rfl, rfl⟩

/-- C4: in every controller state whose renderer handle is absent
(`deck_instance = none`), both add-layer operations return `Ok` (no error is
surfaced, whatever the serialization outcome could have been), append their
layer so the registry grows by one and `layer_count` becomes the new registry
length (one more than the old length), and perform no renderer call — in
particular `setProps` is never invoked. -/
theorem c4_add_layer_without_renderer :
    ∀ (st : BGAPPDeckGLWASM) (lid : String) (elapsed : ℚ) (serdeErr : Bool),
      st.deck_instance = none →
      ((add_scatterplot_layer st lid elapsed serdeErr).ok = true ∧
       (add_scatterplot_layer st lid elapsed serdeErr).calls = [] ∧
       (add_scatterplot_layer st lid elapsed serdeErr).state.layers
         = st.layers ++ [scatterplot_layer lid] ∧
       (add_scatterplot_layer st lid elapsed serdeErr).state.performance.layer_count
         = st.layers.length + 1) ∧
      ((add_heatmap_layer st lid elapsed serdeErr).ok = true ∧
       (add_heatmap_layer st lid elapsed serdeErr).calls = [] ∧
       (add_heatmap_layer st lid elapsed serdeErr).state.layers
         = st.layers ++ [heatmap_layer lid] ∧
       (add_heatmap_layer st lid elapsed serdeErr).state.performance.layer_count
         = st.layers.length + 1) := by
  intro st lid elapsed serdeErr h
  simp [add_scatterplot_layer, add_heatmap_layer, update_deck_layers, h]

/-- C4, witness: the theorem instantiated at a freshly constructed controller
(whose handle is absent) with layer id "a", a 1 ms measured duration and a
failing serialization outcome. -/
theorem c4_add_layer_without_renderer_witness :
    ((add_scatterplot_layer (BGAPPDeckGLWASM.new "map") "a" 1 true).ok = true ∧
     (add_scatterplot_layer (BGAPPDeckGLWASM.new "map") "a" 1 true).calls = [] ∧
     (add_scatterplot_layer (BGAPPDeckGLWASM.new "map") "a" 1 true).state.layers
       = (BGAPPDeckGLWASM.new "map").layers ++ [scatterplot_layer "a"] ∧
     (add_scatterplot_layer (BGAPPDeckGLWASM.new "map") "a" 1 true).state.performance.layer_count
       = (BGAPPDeckGLWASM.new "map").layers.length + 1) ∧
    ((add_heatmap_layer (BGAPPDeckGLWASM.new "map") "a" 1 true).ok = true ∧
     (add_heatmap_layer (BGAPPDeckGLWASM.new "map") "a" 1 true).calls = [] ∧
     (add_heatmap_layer (BGAPPDeckGLWASM.new "map") "a" 1 true).state.layers
       = (BGAPPDeckGLWASM.new "map").layers ++ [heatmap_layer "a"] ∧
     (add_heatmap_layer (BGAPPDeckGLWASM.new "map") "a" 1 true).state.performance.layer_count
       = (BGAPPDeckGLWASM.new "map").layers.length + 1) :=
  c4_add_layer_without_renderer (BGAPPDeckGLWASM.new "map") "a" 1 true rfl

/-- C5, counterexample: the claim "a failing add-layer call leaves the
registry exactly as it was before the call" is false.  From a successfully
initialized controller, an `add_scatterplot_layer("a")` whose registry
serialization fails returns the error, yet the registry has grown from empty
to one layer: the layer is pushed before the fallible sync and is not rolled
back. -/
theorem c5_counterexample_failed_add_grows_registry :
    (add_scatterplot_layer (init_renderer (BGAPPDeckGLWASM.new "map") false 0).state
      "a" 0 true).ok = false ∧
    (init_renderer (BGAPPDeckGLWASM.new "map") false 0).state.layers = [] ∧
    failedAddState.layers.length = 1 ∧
    failedAddState.layers ≠
      (init_renderer (BGAPPDeckGLWASM.new "map") false 0).state.layers := by
  with_unfolding_all decide

/-- C5, amended: a failing add-layer call (possible only when a renderer
handle exists and the registry serialization fails) leaves the registry
grown by exactly the one fully-formed layer it appended — the append
precedes the fallible sync and is not rolled back — while the performance
metrics are left unchanged. -/
theorem c5_failed_add_amended :
    ∀ (st : BGAPPDeckGLWASM) (lid : String) (elapsed : ℚ) (serdeErr : Bool),
      ((add_scatterplot_layer st lid elapsed serdeErr).ok = false →
        (add_scatterplot_layer st lid elapsed serdeErr).state.layers
          = st.layers ++ [scatterplot_layer lid] ∧
        (add_scatterplot_layer st lid elapsed serdeErr).state.performance
          = st.performance) ∧
      ((add_heatmap_layer st lid elapsed serdeErr).ok = false →
        (add_heatmap_layer st lid elapsed serdeErr).state.layers
          = st.layers ++ [heatmap_layer lid] ∧
        (add_heatmap_layer st lid elapsed serdeErr).state.performance
          = st.performance) := by
  intro st lid elapsed serdeErr
  constructor
  · intro h
    cases hu : update_deck_layers
        { st with layers := st.layers ++ [scatterplot_layer lid] } serdeErr with
    | error e => simp [add_scatterplot_layer, hu]
    | ok calls => simp [add_scatterplot_layer, hu] at h
  · intro h
    cases hu : update_deck_layers
        { st with layers := st.layers ++ [heatmap_layer lid] } serdeErr with
    | error e => simp [add_heatmap_layer, hu]
    | ok calls => simp [add_heatmap_layer, hu] at h

/-- C5, amended, witness: the amended theorem instantiated at the concrete
failing call of the counterexample. -/
theorem c5_failed_add_amended_witness :
    failedAddState.layers
      = (init_renderer (BGAPPDeckGLWASM.new "map") false 0).state.layers
        ++ [scatterplot_layer "a"] ∧
    failedAddState.performance
      = (init_renderer (BGAPPDeckGLWASM.new "map") false 0).state.performance :=
  (c5_failed_add_amended (init_renderer (BGAPPDeckGLWASM.new "map") false 0).state
    "a" 0 true).1 (by with_unfolding_all decide)

/-- C9: `cleanup` returns the controller state untouched — the layer
registry, view state and performance metrics (indeed every field) remain as
they were, hence readable after cleanup — and it emits the renderer's
`finalize` teardown call exactly when a renderer handle exists. -/
theorem c9_cleanup_effects :
    ∀ st : BGAPPDeckGLWASM,
      (cleanup st).1 = st ∧
      ((cleanup st).2 = [RendererCall.finalize] ↔ st.deck_instance.isSome = true) ∧
      ((cleanup st).2 = [] ↔ st.deck_instance = none) := by
  intro st
  cases hd : st.deck_instance <;> simp [cleanup, hd]

/-- One valid operation never decreases the cumulative `render_time_ms`:
initialization touches only `init_time_ms`, a failing add leaves the metrics
untouched, a successful add adds its non-negative measured duration, the
sanity pass touches only `memory_usage_kb`, and cleanup touches nothing. -/
theorem step_render_time_mono (st : BGAPPDeckGLWASM) (op : Op) (h : op.valid) :
    st.performance.render_time_ms ≤ (step st op).performance.render_time_ms := by
  cases op with
  | initOp envErr elapsed =>
      cases envErr <;> simp [step, init_renderer]
  | addScatter lid elapsed serdeErr =>
      have h0 : (0 : ℚ) ≤ elapsed := h
      cases hu : update_deck_layers
          { st with layers := st.layers ++ [scatterplot_layer lid] } serdeErr with
      | error e => simp [step, add_scatterplot_layer, hu]
      | ok calls => simp [step, add_scatterplot_layer, hu]; linarith
  | addHeat lid elapsed serdeErr =>
      have h0 : (0 : ℚ) ≤ elapsed := h
      cases hu : update_deck_layers
          { st with layers := st.layers ++ [heatmap_layer lid] } serdeErr with
      | error e => simp [step, add_heatmap_layer, hu]
      | ok calls => simp [step, add_heatmap_layer, hu]; linarith
  | sanity w => simp [step, run_sanity_checks]
  | cleanupOp => cases hd : st.deck_instance <;> simp [step, cleanup, hd]

/-- `render_time_ms` is non-decreasing along any run of valid operations. -/
theorem run_render_time_mono (ops : List Op) :
    ∀ st : BGAPPDeckGLWASM, (∀ op ∈ ops, op.valid) →
      st.performance.render_time_ms ≤ (run st ops).performance.render_time_ms := by
  induction ops with
  | nil => intro st _; simp [run]
  | cons op rest ih =>
      intro st h
      have h1 := step_render_time_mono st op (h op (by simp))
      have h2 := ih (step st op) (fun o ho => h o (by simp [ho]))
      calc st.performance.render_time_ms
          ≤ (step st op).performance.render_time_ms := h1
        _ ≤ (run (step st op) rest).performance.render_time_ms := h2
        _ = (run st (op :: rest)).performance.render_time_ms := by simp [run]

/-- C6: across every sequence of controller operations whose measured
durations are non-negative, the cumulative `performance.render_time_ms` is
monotonically non-decreasing (nothing ever resets it); and after every
successful add-layer call (of either kind) `performance.layer_count` equals
the length of the layer registry. -/
theorem c6_metrics_invariants :
    (∀ (st : BGAPPDeckGLWASM) (ops : List Op), (∀ op ∈ ops, op.valid) →
      st.performance.render_time_ms ≤ (run st ops).performance.render_time_ms) ∧
    (∀ (st : BGAPPDeckGLWASM) (lid : String) (elapsed : ℚ) (serdeErr : Bool),
      (add_scatterplot_layer st lid elapsed serdeErr).ok = true →
      (add_scatterplot_layer st lid elapsed serdeErr).state.performance.layer_count
        = (add_scatterplot_layer st lid elapsed serdeErr).state.layers.length) ∧
    (∀ (st : BGAPPDeckGLWASM) (lid : String) (elapsed : ℚ) (serdeErr : Bool),
      (add_heatmap_layer st lid elapsed serdeErr).ok = true →
      (add_heatmap_layer st lid elapsed serdeErr).state.performance.layer_count
        = (add_heatmap_layer st lid elapsed serdeErr).state.layers.length) := by
  refine ⟨fun st ops h => run_render_time_mono ops st h, ?_, ?_⟩
  · intro st lid elapsed serdeErr h
    cases hu : update_deck_layers
        { st with layers := st.layers ++ [scatterplot_layer lid] } serdeErr with
    | error e => simp [add_scatterplot_layer, hu] at h
    | ok calls => simp [add_scatterplot_layer, hu]
  · intro st lid elapsed serdeErr h
    cases hu : update_deck_layers
        { st with layers := st.layers ++ [heatmap_layer lid] } serdeErr with
    | error e => simp [add_heatmap_layer, hu] at h
    | ok calls => simp [add_heatmap_layer, hu]

/-- C6, witness: the theorem instantiated at a fresh controller with a
session of one successful initialization and one add of each kind (durations
1, 2 and 3 ms), and at concrete successful add calls. -/
theorem c6_metrics_invariants_witness :
    ((BGAPPDeckGLWASM.new "map").performance.render_time_ms ≤
      (run (BGAPPDeckGLWASM.new "map")
        [Op.initOp false 1, Op.addScatter "a" 2 false, Op.addHeat "b" 3 false]
        ).performance.render_time_ms) ∧
    ((add_scatterplot_layer (BGAPPDeckGLWASM.new "map") "a" 2 false).state.performance.layer_count
      = (add_scatterplot_layer (BGAPPDeckGLWASM.new "map") "a" 2 false).state.layers.length) ∧
    ((add_heatmap_layer (BGAPPDeckGLWASM.new "map") "b" 3 false).state.performance.layer_count
      = (add_heatmap_layer (BGAPPDeckGLWASM.new "map") "b" 3 false).state.layers.length) :=
  ⟨c6_metrics_invariants.1 (BGAPPDeckGLWASM.new "map")
      [Op.initOp false 1, Op.addScatter "a" 2 false, Op.addHeat "b" 3 false]
      (by
        intro op hop
        simp only [List.mem_cons, List.not_mem_nil, or_false] at hop
        rcases hop with h | h | h <;> subst h <;> show (0 : ℚ) ≤ _ <;> norm_num),
   c6_metrics_invariants.2.1 (BGAPPDeckGLWASM.new "map") "a" 2 false
     (by with_unfolding_all decide),
   c6_metrics_invariants.2.2 (BGAPPDeckGLWASM.new "map") "b" 3 false
     (by with_unfolding_all decide)⟩

/-- C7: `run_sanity_checks` produces exactly the seven named boolean checks
(the constant "wasm initialized" flag, renderer-handle present, registry
non-empty, WebGL available, `init_time_ms < 1000`, cumulative
`render_time_ms < 500`, `memory_usage_kb` estimate `< 10000`); its
`all_passed` aggregate holds iff all checks hold (the logical AND), and in
every state whose renderer handle is absent the aggregate is false,
regardless of the other checks. -/
theorem c7_sanity_aggregate_and :
    ∀ (st : BGAPPDeckGLWASM) (w : Bool),
      (run_sanity_checks st w).checks =
        [("wasm_initialized", true),
         ("deck_instance_created", st.deck_instance.isSome),
         ("layers_created", decide (0 < st.layers.length)),
         ("webgl2_available", w),
         ("init_time_acceptable", decide (st.performance.init_time_ms < 1000)),
         ("render_time_acceptable", decide (st.performance.render_time_ms < 500)),
         ("memory_usage_acceptable", decide (((st.layers.length * 100 : ℕ) : ℚ) < 10000))] ∧
      ((run_sanity_checks st w).all_passed = true ↔
        (st.deck_instance.isSome = true ∧ 0 < st.layers.length ∧ w = true ∧
         st.performance.init_time_ms < 1000 ∧ st.performance.render_time_ms < 500 ∧
         ((st.layers.length * 100 : ℕ) : ℚ) < 10000)) ∧
      (st.deck_instance = none → (run_sanity_checks st w).all_passed = false) := by
  intro st w
  refine ⟨rfl, ?_, ?_⟩
  · simp [run_sanity_checks, sanity_checks_list, and_assoc]
  · intro h
    simp [run_sanity_checks, sanity_checks_list, h]

/-- C7, witness: at a fresh controller (renderer handle absent) with the
WebGL probe succeeding, the aggregate is false. -/
theorem c7_sanity_aggregate_and_witness :
    (run_sanity_checks (BGAPPDeckGLWASM.new "map") true).all_passed = false :=
  (c7_sanity_aggregate_and (BGAPPDeckGLWASM.new "map") true).2.2 rfl

/-- C8, counterexample: the claim that `run_sanity_checks` recomputes
`memory_usage_kb` as `layer_count * 100` is false: the source computes the
estimate from the registry length, `layers.len() * 100`.  In the concrete
state reached by a successful `initialize` and then an add whose sync
serialization failed, the stored `layer_count` is still 0 while the registry
holds 1 layer, and the sanity pass stores 100 — not `layer_count * 100 = 0`. -/
theorem c8_counterexample_memory_formula :
    failedAddState.performance.layer_count = 0 ∧
    failedAddState.layers.length = 1 ∧
    (run_sanity_checks failedAddState true).state.performance.memory_usage_kb = 100 ∧
    ¬ ((run_sanity_checks failedAddState true).state.performance.memory_usage_kb
        = ((failedAddState.performance.layer_count * 100 : ℕ) : ℚ)) := by
  with_unfolding_all decide

/-- C8, amended: `run_sanity_checks` mutates no controller state except the
one derived field `memory_usage_kb`, which it overwrites with the estimate
`(registry length) * 100` kilobytes — equal to `layer_count * 100` whenever
the stored `layer_count` matches the registry length (as it does after any
successful add and in the initial state); the registry, view state, renderer
handle, canvas id and all other metrics fields are unchanged by the call. -/
theorem c8_sanity_mutation_amended :
    ∀ (st : BGAPPDeckGLWASM) (w : Bool),
      ((run_sanity_checks st w).state.deck_instance = st.deck_instance ∧
       (run_sanity_checks st w).state.view_state = st.view_state ∧
       (run_sanity_checks st w).state.layers = st.layers ∧
       (run_sanity_checks st w).state.canvas_id = st.canvas_id ∧
       (run_sanity_checks st w).state.performance.init_time_ms
         = st.performance.init_time_ms ∧
       (run_sanity_checks st w).state.performance.render_time_ms
         = st.performance.render_time_ms ∧
       (run_sanity_checks st w).state.performance.layer_count
         = st.performance.layer_count ∧
       (run_sanity_checks st w).state.performance.fps = st.performance.fps ∧
       (run_sanity_checks st w).state.performance.memory_usage_kb
         = ((st.layers.length * 100 : ℕ) : ℚ)) ∧
      (st.performance.layer_count = st.layers.length →
        (run_sanity_checks st w).state.performance.memory_usage_kb
          = ((st.performance.layer_count * 100 : ℕ) : ℚ)) := by
  intro st w
  refine ⟨⟨rfl, rfl, rfl, rfl, rfl, rfl, rfl, rfl, rfl⟩, ?_⟩
  intro h
  simp [run_sanity_checks, h]

/-- C8, amended, witness: at a fresh controller (where `layer_count` and the
registry length agree at 0) the stored estimate is `layer_count * 100`. -/
theorem c8_sanity_mutation_amended_witness :
    (run_sanity_checks (BGAPPDeckGLWASM.new "map") true).state.performance.memory_usage_kb
      = (((BGAPPDeckGLWASM.new "map").performance.layer_count * 100 : ℕ) : ℚ) :=
  (c8_sanity_mutation_amended (BGAPPDeckGLWASM.new "map") true).2 rfl

end WasmDeckGL
